import Mathlib

/-!
Verification of the bytecode-compiler core in `src/checker/compiler.h`
(namespace `ts::checker`): storage pool, frame/symbol tables, subroutine
registry, the node walker `Compiler::handle`, and the linker
`Program::build` / `Program::setFinalBinaryAddress`.

Shallow embedding conventions:
* byte buffers (`vector<unsigned char>`) are `List Nat` of byte values;
* `string_view` identifiers are `String`; literal payloads (raw byte text)
  are `List Nat`;
* the `shared<Frame>` parent chain is a `List Frame` whose head is the
  current frame and whose tail is the `previous` chain (root last);
* `Subroutine*` pointers into the registry are indices into
  `Program.subroutines` (the C++ stores raw pointers into a growing
  vector; the index is the stable identity of the entry);
* `Symbol.frame` (a `shared<Frame>` back reference read only for its
  `->id`) is stored as the owning frame's id, `frameId`;
* C++ exceptions become `Except CompileError`; dereferencing a null
  `Subroutine*` (undefined behaviour in the source) is modelled as the
  distinguished error `nullRoutine`;
* unbounded C++ recursion in `Compiler::handle` is modelled with an
  explicit fuel argument (`outOfFuel` when exhausted); all theorems
  quantify over fuel or use a fuel large enough for the concrete input.
-/

namespace TsChecker

/-- Modelled from the spec: `instructions.h` (the `OP` enumeration) is not
part of the sources under verification.  The spec (§6) fixes the opcode
set — `Boolean, String, Number, True, False, BigIntLiteral, NumberLiteral,
StringLiteral, Union, Loads, Call, Var, Function, Unknown, Assign, Frame,
Jump, Return` — but not the byte values; we assign distinct byte values in
the spec's listing order. -/
def opBoolean : Nat := 0

def opString : Nat := 1

def opNumber : Nat := 2

def opTrue : Nat := 3

def opFalse : Nat := 4

def opBigIntLiteral : Nat := 5

def opNumberLiteral : Nat := 6

def opStringLiteral : Nat := 7

def opUnion : Nat := 8

def opLoads : Nat := 9

def opCall : Nat := 10

def opVar : Nat := 11

def opFunction : Nat := 12

def opUnknown : Nat := 13

def opAssign : Nat := 14

def opFrame : Nat := 15

def opJump : Nat := 16

def opReturn : Nat := 17

/-- Modelled from the spec: `utils.h` (`writeUint32` and friends) is not
part of the sources under verification.  Spec §6: all multi-byte integers
are little-endian with fixed widths.  `toBytes4` is the 4-byte
little-endian encoding of a value (truncated to 32 bits, as the C++
`unsigned int` is). -/
def toBytes4 (v : Nat) : List Nat :=
  [v % 256, v / 256 % 256, v / 65536 % 256, v / 16777216 % 256]

/-- Little-endian decoding of the first four bytes of a list (missing
bytes read as 0; the C++ read past the end of a vector is undefined
behaviour, modelled as 0). -/
def fromBytes4 (l : List Nat) : Nat :=
  l.getD 0 0 + 256 * l.getD 1 0 + 65536 * l.getD 2 0 + 16777216 * l.getD 3 0

/-- Modelled from the spec: write `bs` into `buf` at offset `off`,
growing the buffer (zero-padded) when it is too short.  This is the only
behaviour consistent with the source's use of
`writeUint32(ops, ops.size(), v)` as an append. -/
def writeBytesAt (buf : List Nat) (off : Nat) (bs : List Nat) : List Nat :=
  buf.takeD off 0 ++ bs ++ buf.drop (off + bs.length)

/-- Modelled from the spec: `writeUint32(buf, off, v)` writes the 4-byte
little-endian encoding of `v` at `off`. -/
def writeUint32 (buf : List Nat) (off : Nat) (v : Nat) : List Nat :=
  writeBytesAt buf off (toBytes4 v)

/-- Modelled from the spec: `writeUint16(buf, off, v)` writes the 2-byte
little-endian encoding of `v` at `off`. -/
def writeUint16 (buf : List Nat) (off : Nat) (v : Nat) : List Nat :=
  writeBytesAt buf off [v % 256, v / 256 % 256]

/-- Modelled from the spec: `readUint32(buf, off)` reads a 4-byte
little-endian value at `off`. -/
def readUint32 (buf : List Nat) (off : Nat) : Nat :=
  fromBytes4 (buf.drop off)

/-- `enum class SymbolType` from the source.  The C++ enumerator `Type`
is spelled `Typ` here because `Type` is a Lean keyword. -/
inductive SymbolType where
  | Variable
  | Function
  | Class
  | Typ
  | TypeVariable
deriving Repr, DecidableEq

/-- The error taxonomy (spec §7) for the `runtime_error` throws of the
source, plus `nullRoutine` for the source's null-`Subroutine*`
dereferences (undefined behaviour) and `outOfFuel` for the fuel model of
the source's unbounded recursion. -/
inductive CompileError where
  | unresolvedSymbol
  | unknownRoutine
  | emptyRoutine
  | noActiveRoutine
  | nullRoutine
  | outOfFuel
deriving Repr, DecidableEq

/-- `struct Subroutine` (the `opSourceMap` diagnostic field is omitted:
it is never read by the compilation or linking logic). -/
structure Subroutine where
  ops : List Nat
  identifier : String
  address : Nat
  pos : Nat
  type : SymbolType
deriving Repr, DecidableEq

instance : Inhabited Subroutine :=
  ⟨{ ops := [], identifier := "", address := 0, pos := 0, type := SymbolType.Typ }⟩

/-- `struct Symbol`.  `frame` (a `shared<Frame>` back reference, read
only as `symbol.frame->id`) is stored as the owning frame's id
`frameId`; `routine` (a `Subroutine*`) is an optional registry index. -/
structure Symbol where
  name : String
  type : SymbolType
  index : Nat
  pos : Nat
  declarations : Nat
  routine : Option Nat
  frameId : Nat
deriving Repr, DecidableEq

instance : Inhabited Symbol :=
  ⟨{ name := "", type := SymbolType.Variable, index := 0, pos := 0,
     declarations := 1, routine := none, frameId := 0 }⟩

/-- `struct Frame` without its `previous` pointer: the active
root-to-leaf chain of frames is represented as a `List Frame` (head =
current frame, tail = the `previous` chain).  The `conditional` flag is
omitted (never read or set by this source). -/
structure Frame where
  id : Nat
  symbols : List Symbol
deriving Repr, DecidableEq

instance : Inhabited Frame := ⟨{ id := 0, symbols := [] }⟩

/-- `class Program`.  `frame` is the current frame chain (head current);
`activeSubroutines` is the active-routine stack (head = top =
`vector::back()`); `opSourceMap` and the never-used `storageMap` are
omitted — note the source declares `storageMap` with the comment "used
to deduplicated storage entries" but never touches it. -/
structure Program where
  ops : List Nat
  storage : List (List Nat)
  storageIndex : Nat
  frame : List Frame
  activeSubroutines : List Nat
  subroutines : List Subroutine
deriving Repr, DecidableEq

/-- The freshly constructed `Program`: one root frame with id 0. -/
def emptyProgram : Program :=
  { ops := [], storage := [], storageIndex := 0,
    frame := [{ id := 0, symbols := [] }],
    activeSubroutines := [], subroutines := [] }

/-- Update the element at index `i` (no-op when out of range); used to
model writes through references/pointers into a `vector`. -/
def listModify : List α → Nat → (α → α) → List α
  | [], _, _ => []
  | a :: t, 0, f => f a :: t
  | a :: t, n + 1, f => a :: listModify t n f

namespace Program

/-- `getOPs()`: the current emission target — the top active
subroutine's buffer if any, else the main buffer.  `appendOps` models a
write through the returned reference. -/
def appendOps (p : Program) (bs : List Nat) : Program :=
  match p.activeSubroutines with
  | [] => { p with ops := p.ops ++ bs }
  | i :: _ =>
      { p with subroutines := (listModify p.subroutines i
          (fun s => { s with ops := s.ops ++ bs })) }

/-- `pushOp` (the `params` vector argument is defaulted and never passed
at any call site of this source, so it is omitted). -/
def pushOp (p : Program) (op : Nat) : Program :=
  p.appendOps [op]

/-- `pushAddress`: `writeUint32(ops, ops.size(), address)` — appends the
4-byte little-endian address to the current emission target. -/
def pushAddress (p : Program) (address : Nat) : Program :=
  p.appendOps (toBytes4 address)

/-- `pushSymbolAddress`: two consecutive `writeUint32` appends —
`symbol.frame->id` then `symbol.index`, 8 bytes in total. -/
def pushSymbolAddress (p : Program) (symbol : Symbol) : Program :=
  p.appendOps (toBytes4 symbol.frameId ++ toBytes4 symbol.index)

/-- Current frame id (`frame->id`); the chain is never empty. -/
def currentFrameId (p : Program) : Nat :=
  (p.frame.headD default).id

/-- `pushFrame(implicit)`: emit `OP::Frame` unless implicit, then make a
child frame with id `parent + 1` the current frame. -/
def pushFrame (p : Program) (implicit : Bool) : Program :=
  let p1 := if implicit then p else p.pushOp opFrame
  { p1 with frame := { id := p1.currentFrameId + 1, symbols := [] } :: p1.frame }

/-- `popFrameImplicit()`: step to the parent frame; no-op at the root
(`if (frame->previous) frame = frame->previous`). -/
def popFrameImplicit (p : Program) : Program :=
  match p.frame with
  | _ :: g :: rest => { p with frame := g :: rest }
  | _ => p

/-- `findSymbol`'s loop: first match in the innermost frame of the
chain, walking outward. -/
def findOnChain : List Frame → String → Option Symbol
  | [], _ => none
  | f :: rest, name =>
      match f.symbols.find? (fun s => s.name == name) with
      | some s => some s
      | none => findOnChain rest name

/-- `Program::findSymbol`: resolves along the current chain, throwing
(`UnresolvedSymbol`) when the chain is exhausted. -/
def findSymbol (p : Program) (identifier : String) : Except CompileError Symbol :=
  match findOnChain p.frame identifier with
  | some s => .ok s
  | none => .error .unresolvedSymbol

/-- `Program::pushSymbol` (the `frameToUse` parameter is always
defaulted to the current frame at every call site of this source, so the
operation acts on the chain head).  Returns the updated program and the
symbol's index in the frame.  Note: the source's designated initializer
sets only `.frame`, `.name`, `.pos` and `.index`, so the `type`
parameter is dropped and the stored `type` is value-initialized to
`Variable` (the first enumerator). -/
def pushSymbol (p : Program) (name : String) (type : SymbolType) (pos : Nat) :
    Program × Nat :=
  match p.frame with
  | [] => (p, 0)
  | f :: rest =>
      match f.symbols.findIdx? (fun s => s.name == name) with
      | some si =>
          ({ p with frame := ({ f with symbols := (listModify f.symbols si
                  (fun s => { s with declarations := s.declarations + 1 })) } :: rest) },
           si)
      | none =>
          ({ p with frame := ({ f with symbols := (f.symbols ++
                  [{ name := name, type := SymbolType.Variable,
                     index := f.symbols.length, pos := pos, declarations := 1,
                     routine := none, frameId := f.id }]) } :: rest) },
           f.symbols.length)

/-- Symbols of the current frame. -/
def currentSymbols (p : Program) : List Symbol :=
  (p.frame.headD default).symbols

/-- Attach a registry index to the symbol at `si` of the current frame
(models `symbol.routine = &subroutines.back()`). -/
def setSymbolRoutine (p : Program) (si : Nat) (idx : Nat) : Program :=
  match p.frame with
  | [] => p
  | f :: rest =>
      { p with frame := ({ f with symbols := (listModify f.symbols si
              (fun s => { s with routine := some idx })) } :: rest) }

/-- `Program::pushSymbolForRoutine`: declare-or-reuse a symbol; when it
has no routine yet, append a fresh `Subroutine` whose `address` is its
provisional registry index and attach it to the symbol. -/
def pushSymbolForRoutine (p : Program) (name : String) (type : SymbolType)
    (pos : Nat) : Program × Nat :=
  let pr := p.pushSymbol name type pos
  let p1 := pr.1
  let si := pr.2
  let symbol := p1.currentSymbols.getD si default
  if symbol.routine.isSome then (p1, si)
  else
    let routine : Subroutine :=
      { ops := [], identifier := name, address := p1.subroutines.length,
        pos := pos, type := type }
    let p2 := p1.setSymbolRoutine si p1.subroutines.length
    ({ p2 with subroutines := p2.subroutines ++ [routine] }, si)

/-- `Program::pushSubroutine`: look the name up in the current frame's
own symbol list only; on a hit, push an implicit frame, push the
symbol's routine onto the active stack and return `routine->address`.
A missing symbol is the `UnknownRoutine` throw; a symbol without a
routine makes the source dereference a null `Subroutine*`
(`nullRoutine` here). -/
def pushSubroutine (p : Program) (name : String) :
    Except CompileError (Program × Nat) :=
  match (p.frame.headD default).symbols.find? (fun s => s.name == name) with
  | some s =>
      match s.routine with
      | some i =>
          let p1 := p.pushFrame true
          .ok ({ p1 with activeSubroutines := i :: p1.activeSubroutines },
               (p1.subroutines.getD i default).address)
      | none => .error .nullRoutine
  | none => .error .unknownRoutine

/-- `Program::popSubroutine`, state-passing form: the returned program is
the state at normal return or at the point of the throw.  Source order:
check the stack is non-empty, `popFrameImplicit()`, check the top
routine's buffer is non-empty (throw `EmptyRoutine` after the frame was
already popped), append `OP::Return`, pop the stack. -/
def popSubroutineSt (p : Program) : Program × Option CompileError :=
  if p.activeSubroutines.isEmpty then (p, some .noActiveRoutine)
  else
    let p1 := p.popFrameImplicit
    match p1.activeSubroutines with
    | [] => (p1, some .noActiveRoutine)
    | i :: rest =>
        if (p1.subroutines.getD i default).ops.isEmpty then
          (p1, some .emptyRoutine)
        else
          ({ p1 with
              subroutines := (listModify p1.subroutines i
                (fun s => { s with ops := s.ops ++ [opReturn] })),
              activeSubroutines := rest },
           none)

/-- `Program::popSubroutine` as the exception it raises (the mutated
state is discarded by the escaping exception). -/
def popSubroutine (p : Program) : Except CompileError Program :=
  match p.popSubroutineSt with
  | (q, none) => .ok q
  | (_, some e) => .error e

/-- `Program::registerStorage`: appends unconditionally (the source
never consults `storageMap`; its own comment says "make sure the same
name is not added twice. needs hashmap"), with the running offset
starting at 5 (`//jump+address`). -/
def registerStorage (p : Program) (s : List Nat) : Program × Nat :=
  let storageIndex := if p.storageIndex = 0 then 5 else p.storageIndex
  ({ p with storage := p.storage ++ [s], storageIndex := storageIndex + 2 + s.length },
   storageIndex)

/-- `Program::pushStorage`: intern then push the returned offset as a
4-byte address. -/
def pushStorage (p : Program) (s : List Nat) : Program :=
  let pr := p.registerStorage s
  pr.1.pushAddress pr.2

end Program

/-- The loop body of `Program::setFinalBinaryAddress`.  `endIdx` is the
`const auto end = ops.size()` captured before the loop; the loop index
`i` advances by 1 (`i++`) for an opcode without a switch case, and by 5
(`i += 4; i++`) after a `Call` (whose 4-byte operand is rewritten in
place from registry index to final address) or after `Loads` /
`NumberLiteral` / `BigIntLiteral` / `StringLiteral`.  The C++ `for` loop
is bounded by `endIdx` iterations, which the explicit `fuel` (instantiated
with `endIdx` below) dominates since `i` strictly increases. -/
def sfbGo (subs : List Subroutine) (endIdx : Nat) :
    Nat → List Nat → Nat → List Nat
  | 0, ops, _ => ops
  | fuel + 1, ops, i =>
      if i < endIdx then
        let op := ops.getD i 0
        if op = opCall then
          let index := readUint32 ops (i + 1)
          let ops1 := writeUint32 ops (i + 1) ((subs.getD index default).address)
          sfbGo subs endIdx fuel ops1 (i + 5)
        else if op = opLoads ∨ op = opNumberLiteral ∨ op = opBigIntLiteral ∨
            op = opStringLiteral then
          sfbGo subs endIdx fuel ops (i + 5)
        else
          sfbGo subs endIdx fuel ops (i + 1)
      else ops

/-- `Program::setFinalBinaryAddress(ops)`: rewrite every `Call` operand
the scan reaches from registry index to the routine's (already assigned)
final address, reading addresses from the registry `subs`. -/
def setFinalBinaryAddress (subs : List Subroutine) (ops : List Nat) : List Nat :=
  sfbGo subs ops.length ops.length ops 0

/-- `Program::build()`: assemble `[Jump + target?] ++ storage ++
subroutine bodies ++ main`, assigning final subroutine addresses and
rewriting `Call` operands.  Returns the binary together with the mutated
program (`build` patches `ops` and the registry in place). -/
def build (p : Program) : List Nat × Program :=
  let start : List Nat × Nat :=
    if p.storage.isEmpty && p.subroutines.isEmpty then ([], 0)
    else (opJump :: toBytes4 0, 5)
  let afterStorage : List Nat × Nat :=
    p.storage.foldl
      (fun acc item => (writeUint16 acc.1 acc.2 item.length ++ item,
                        acc.2 + 2 + item.length))
      start
  let routineAddress := afterStorage.2
  let subs1 : List Subroutine :=
    (p.subroutines.foldl
      (fun (acc : List Subroutine × Nat) r =>
        (acc.1 ++ [{ r with address := acc.2 }], acc.2 + r.ops.length))
      ([], routineAddress)).1
  let mainOps := setFinalBinaryAddress subs1 p.ops
  let subs2 := subs1.map (fun r => { r with ops := setFinalBinaryAddress subs1 r.ops })
  let afterRoutines : List Nat × Nat :=
    subs2.foldl (fun acc r => (acc.1 ++ r.ops, acc.2 + r.ops.length)) afterStorage
  let bin := writeUint32 afterRoutines.1 1 afterRoutines.2 ++ mainOps
  (bin, { p with ops := mainOps, subroutines := subs2 })

/-- The AST interface consumed by `Compiler::handle` (spec §6: nodes
expose a kind, a source position and kind-specific children).  Identifier
text is `String`; literal text is a raw byte list.  The extra `seq`
constructor is an internal sequencing device that models the C++ `for`
loops over child-node lists (`SourceFile` statements, union members,
variable-statement declarations, the function-parameter loop); it is not
produced by the parser. -/
inductive Node where
  | seq (nodes : List Node)
  | sourceFile (statements : List Node)
  | booleanKeyword
  | stringKeyword
  | numberKeyword
  | bigIntLiteral (text : List Nat)
  | numericLiteral (text : List Nat)
  | stringLiteral (text : List Nat)
  | trueKeyword
  | falseKeyword
  | unionType (types : List Node)
  | typeReference (name : String)
  | typeAliasDeclaration (name : String) (pos : Nat)
      (typeParameters : Option (List String)) (type : Node)
  | functionDeclaration (name : Option String) (pos : Nat)
      (parameters : List Node) (type : Option Node) (body : Option Node)
  | variableStatement (declarations : List Node)
  | variableDeclaration (name : Option String) (pos : Nat)
      (type : Option Node) (initializer : Option Node)
  | unhandled
deriving Repr

/-- `Compiler::handle(node, program)`.  The `fuel` argument models the
C++ call stack: every recursive `handle` call (including the iteration
steps of the `seq` loops) consumes one unit, and exhaustion is the
`outOfFuel` error — in particular the source's unbounded
parameter-loop recursion (`handle(n, ...)` on the enclosing function
node, once per parameter) never terminates in C++ and never succeeds
here for any fuel. -/
def handle : Nat → Node → Program → Except CompileError Program
  | 0, _, _ => .error .outOfFuel
  | fuel + 1, node, p =>
      match node with
      | .seq [] => .ok p
      | .seq (n :: ns) => do
          let p1 ← handle fuel n p
          handle fuel (.seq ns) p1
      | .sourceFile statements => handle fuel (.seq statements) p
      | .booleanKeyword => .ok (p.pushOp opBoolean)
      | .stringKeyword => .ok (p.pushOp opString)
      | .numberKeyword => .ok (p.pushOp opNumber)
      | .bigIntLiteral text => .ok ((p.pushOp opBigIntLiteral).pushStorage text)
      | .numericLiteral text => .ok ((p.pushOp opNumberLiteral).pushStorage text)
      | .stringLiteral text => .ok ((p.pushOp opStringLiteral).pushStorage text)
      | .trueKeyword => .ok (p.pushOp opTrue)
      | .falseKeyword => .ok (p.pushOp opFalse)
      | .unionType types => do
          let p1 := p.pushFrame false
          let p2 ← handle fuel (.seq types) p1
          .ok (p2.pushOp opUnion).popFrameImplicit
      | .typeReference name => do
          let symbol ← p.findSymbol name
          if symbol.type = SymbolType.TypeVariable then
            .ok ((p.pushOp opLoads).pushSymbolAddress symbol)
          else
            match symbol.routine with
            | some i =>
                .ok ((p.pushOp opCall).pushAddress
                  ((p.subroutines.getD i default).address))
            | none => .error .nullRoutine
      | .typeAliasDeclaration name pos typeParameters type =>
          let pr := p.pushSymbolForRoutine name SymbolType.Typ pos
          let p1 := pr.1
          let symbol := p1.currentSymbols.getD pr.2 default
          if 1 < symbol.declarations then .ok p1
          else do
            let r ← p1.pushSubroutine name
            let p3 :=
              match typeParameters with
              | some ps =>
                  ps.foldl
                    (fun acc _ =>
                      ((acc.pushSymbol name SymbolType.TypeVariable pos).1).pushOp opVar)
                    r.1
              | none => r.1
            let p4 ← handle fuel type p3
            p4.popSubroutine
      | .functionDeclaration nameOpt pos parameters type body =>
          match nameOpt with
          | some id =>
              let pr := p.pushSymbolForRoutine id SymbolType.Function pos
              let p1 := pr.1
              let symbol := p1.currentSymbols.getD pr.2 default
              if 1 < symbol.declarations then .ok p1
              else do
                let r ← p1.pushSubroutine id
                let p3 ← handle fuel
                  (.seq (parameters.map (fun _ =>
                    Node.functionDeclaration nameOpt pos parameters type body)))
                  r.1
                let p4 ←
                  match type with
                  | some t => handle fuel t p3
                  | none => .ok (p3.pushOp opUnknown)
                (p4.pushOp opFunction).popSubroutine
          | none => .ok p
      | .variableStatement declarations => handle fuel (.seq declarations) p
      | .variableDeclaration nameOpt pos type initializer =>
          match nameOpt with
          | some id =>
              let pr := p.pushSymbolForRoutine id SymbolType.Variable pos
              let p1 := pr.1
              let symbol := p1.currentSymbols.getD pr.2 default
              if 1 < symbol.declarations then .ok p1
              else do
                let r ← p1.pushSubroutine id
                let subroutineIndex := r.2
                let p3 ←
                  match type with
                  | some t => handle fuel t r.1
                  | none => .ok (r.1.pushOp opUnknown)
                let p4 ← p3.popSubroutine
                match initializer with
                | some e => do
                    let p5 ← handle fuel e p4
                    .ok (((p5.pushOp opCall).pushAddress subroutineIndex).pushOp opAssign)
                | none => .ok p4
          | none => .ok p
      | .unhandled => .ok p

/-- `Compiler::compileSourceFile`: run the walker on a fresh `Program`. -/
def compileSourceFile (fuel : Nat) (file : Node) : Except CompileError Program :=
  handle fuel file emptyProgram

/-! ### Fixtures and specification predicates used by the theorems -/

/-- A source unit with a forward reference: alias `A` references alias
`B`, declared later in the same unit. -/
def forwardRefUnit : Node :=
  .sourceFile [.typeAliasDeclaration "A" 0 none (.typeReference "B"),
               .typeAliasDeclaration "B" 1 none .numberKeyword]

/-- A symbol as `pushSymbolAddress` reads it: owning frame id 3, slot
index 10. -/
def c2Symbol : Symbol :=
  { name := "T", type := SymbolType.Variable, index := 10, pos := 0,
    declarations := 1, routine := none, frameId := 3 }

/-- A one-entry registry whose routine has already been assigned final
address 7. -/
def c2Registry : List Subroutine :=
  [{ ops := [opNumber, opReturn], identifier := "B", address := 7, pos := 0,
     type := SymbolType.Typ }]

/-- An emitted stream: a `Loads` instruction (opcode + 4-byte frame id 3
+ 4-byte slot index 10) followed by the operand-free `Boolean` opcode.
Its only instructions are `Loads` and `Boolean`; it contains no `Call`
instruction. -/
def c2Stream : List Nat :=
  opLoads :: (toBytes4 3 ++ toBytes4 10) ++ [opBoolean]

/-- A unit that declares the same alias twice at top level. -/
def aliasTwiceUnit : Node :=
  .sourceFile [.typeAliasDeclaration "A" 0 none .numberKeyword,
               .typeAliasDeclaration "A" 1 none .stringKeyword]

/-- A generic alias whose body references a symbol that was declared
with kind `TypeVariable` (the type parameter registered under the
alias's own name, exactly as the source's parameter loop does). -/
def genericAliasUnit : Node :=
  .sourceFile [.typeAliasDeclaration "A" 0 (some ["T"]) (.typeReference "A")]

/-- `name` is declared by some frame on the chain (spec §4.1: resolution
fails exactly when no frame on the current chain declares the name). -/
def DeclaredOnChain (chain : List Frame) (name : String) : Prop :=
  ∃ f ∈ chain, ∃ s ∈ f.symbols, s.name = name

/-- The sibling-alias scenario of spec §8, built from the program
operations of the source: declare alias `A`, enter its routine, declare
the `TypeVariable` `T` there (plus a parameter marker and a body
opcode), leave the routine, declare sibling alias `B`, enter its
routine, and resolve `T` from inside `B`'s routine body. -/
def c8Scenario : Except CompileError Symbol := do
  let pr1 := emptyProgram.pushSymbolForRoutine "A" SymbolType.Typ 0
  let r1 ← pr1.1.pushSubroutine "A"
  let p2 := ((r1.1.pushSymbol "T" SymbolType.TypeVariable 0).1).pushOp opVar
  let p3 := p2.pushOp opNumber
  let p4 ← p3.popSubroutine
  let pr2 := p4.pushSymbolForRoutine "B" SymbolType.Typ 1
  let r2 ← pr2.1.pushSubroutine "B"
  r2.1.findSymbol "T"

/-- The symbol of alias `A` as the source stores it after a first
declaration: routine attached at registry index 0 (the stored kind is
`Variable` — see C4). -/
def symbolA : Symbol :=
  { name := "A", type := SymbolType.Variable, index := 0, pos := 0,
    declarations := 1, routine := some 0, frameId := 0 }

/-- A root frame declaring alias `A`. -/
def frameWithA : Frame :=
  { id := 0, symbols := [symbolA] }

/-- A program state as it is after one complete top-level declaration of
alias `A` (one routine in the registry, its symbol in the root frame):
the fixture for the redeclaration-idempotence witness. -/
def c5Program : Program :=
  { ops := [], storage := [], storageIndex := 0,
    frame := [frameWithA],
    activeSubroutines := [],
    subroutines := [{ ops := [opNumber, opReturn], identifier := "A", address := 0,
                      pos := 0, type := SymbolType.Typ }] }

/-- A program state inside a routine whose buffer is still empty: one
active subroutine, one implicit frame above the root.  Fixture for the
`popSubroutine` error-path witness. -/
def c9Program : Program :=
  { ops := [], storage := [], storageIndex := 0,
    frame := [{ id := 1, symbols := [] }, { id := 0, symbols := [] }],
    activeSubroutines := [0],
    subroutines := [{ ops := [], identifier := "A", address := 0, pos := 0,
                      type := SymbolType.Typ }] }

/-- A program state whose root frame declares `A` (with routine 0) and
whose current frame is a child that declares nothing.  Fixture for the
`pushSubroutine` current-frame-only witness. -/
def c10Program : Program :=
  { ops := [], storage := [], storageIndex := 0,
    frame := [{ id := 1, symbols := [] }, frameWithA],
    activeSubroutines := [],
    subroutines := [{ ops := [opNumber, opReturn], identifier := "A", address := 0,
                      pos := 0, type := SymbolType.Typ }] }

/-! ### Helper lemmas -/

/-- `listModify` at the modified index. -/
theorem listModify_getElem? (l : List α) (i : Nat) (g : α → α) :
    (listModify l i g)[i]? = (l[i]?).map g := by
  induction l generalizing i with
  | nil => simp [listModify]
  | cons a t ih =>
      cases i with
      | zero => simp [listModify]
      | succ n => simp [listModify, ih]

/-- `findOnChain` misses exactly when no frame on the chain declares the
name. -/
theorem findOnChain_eq_none_iff (chain : List Frame) (name : String) :
    Program.findOnChain chain name = none ↔ ¬ DeclaredOnChain chain name := by
  induction chain with
  | nil => simp [Program.findOnChain, DeclaredOnChain]
  | cons f rest ih =>
      simp only [Program.findOnChain]
      cases hf : f.symbols.find? (fun s => s.name == name) with
      | some s =>
          have hs : s ∈ f.symbols := List.mem_of_find?_eq_some hf
          have hn : s.name = name := by
            have := List.find?_some hf
            simpa using this
          refine iff_of_false (by simp) ?_
          intro hnot
          exact hnot ⟨f, List.mem_cons_self f rest, s, hs, hn⟩
      | none =>
          rw [ih]
          have hfe : ∀ s ∈ f.symbols, ¬ s.name = name := by
            intro s hs
            have := List.find?_eq_none.mp hf s hs
            simpa using this
          constructor
          · rintro hr ⟨fr, hmem, s, hs, hn⟩
            rcases List.mem_cons.mp hmem with rfl | hmem
            · exact hfe s hs hn
            · exact hr ⟨fr, hmem, s, hs, hn⟩
          · intro hnot hr
            rcases hr with ⟨fr, hmem, s, hs, hn⟩
            exact hnot ⟨fr, List.mem_cons_of_mem f hmem, s, hs, hn⟩

/-- The frame chain is untouched by emission. -/
theorem appendOps_frame (p : Program) (bs : List Nat) :
    (p.appendOps bs).frame = p.frame := by
  unfold Program.appendOps
  cases p.activeSubroutines <;> rfl

/-- The current frame id is untouched by emission. -/
theorem appendOps_currentFrameId (p : Program) (bs : List Nat) :
    (p.appendOps bs).currentFrameId = p.currentFrameId := by
  unfold Program.currentFrameId
  rw [appendOps_frame]

/-! ### Claim theorems -/

/-- C1: contrary to the claim, a source unit in which alias `A`
references alias `B` declared later in the unit does not compile at all:
there is no pre-registration pass (the source only carries the TODO
"move this to earlier symbol-scan round"), so `findSymbol` throws
`UnresolvedSymbol` while compiling `A`'s body, and `build()` is never
reached. -/
theorem c1_forward_reference_unresolved :
    compileSourceFile 9 forwardRefUnit = .error .unresolvedSymbol := by
  rfl

/-- C2: `pushSymbolAddress` emits two 4-byte values (8 operand bytes)
after a `Loads` opcode, but the rewriting pass of `build()` steps over
only 4 of them, so it scans the slot-index bytes as opcodes: on a stream
whose instructions are exactly `Loads` (frame id 3, slot index 10) and
`Boolean` — no `Call` instruction anywhere — the pass still rewrites
bytes in place (the slot index's low byte 10 equals the `Call` opcode,
so the following operand bytes are overwritten with a routine
address). -/
theorem c2_loads_operand_scan_mismatch :
    (Program.pushSymbolAddress emptyProgram c2Symbol).ops =
      toBytes4 c2Symbol.frameId ++ toBytes4 c2Symbol.index ∧
    (toBytes4 c2Symbol.frameId ++ toBytes4 c2Symbol.index).length = 8 ∧
    setFinalBinaryAddress c2Registry c2Stream =
      [opLoads, 3, 0, 0, 0, 10, 7, 0, 0, 0] ∧
    setFinalBinaryAddress c2Registry c2Stream ≠ c2Stream := by
  refine ⟨rfl, rfl, rfl, ?_⟩
  decide

/-- C3: contrary to the claim, `registerStorage` does not deduplicate:
interning the byte payload "abc" twice returns offset 5 and then offset
10 (not 5 again) and stores the payload twice (the `storageMap` declared
"used to deduplicated storage entries" is never consulted; the function
itself carries the comment "make sure the same name is not added twice.
needs hashmap"). -/
theorem c3_storage_not_deduplicated :
    (emptyProgram.registerStorage [97, 98, 99]).2 = 5 ∧
    ((emptyProgram.registerStorage [97, 98, 99]).1.registerStorage [97, 98, 99]).2 = 10 ∧
    ((emptyProgram.registerStorage [97, 98, 99]).1.registerStorage [97, 98, 99]).1.storage =
      [[97, 98, 99], [97, 98, 99]] := by
  exact ⟨rfl, rfl, rfl⟩

/-- C4: contrary to the claim, a symbol declared with kind
`TypeVariable` is stored with kind `Variable` (the source's designated
initializer omits the `.type` field), so the `Loads` branch of the
type-reference case is unreachable: compiling a generic alias whose body
references its type parameter takes the `Call` branch and dereferences
the null routine pointer instead of emitting `Loads` + frame id +
slot index. -/
theorem c4_symbol_kind_dropped :
    (((emptyProgram.pushSymbol "T" SymbolType.TypeVariable 0).1.frame.headD
        default).symbols.getD 0 default).type = SymbolType.Variable ∧
    compileSourceFile 9 genericAliasUnit = .error .nullRoutine := by
  exact ⟨rfl, rfl⟩

/-- C6 counterexample: frame ids are not unique across the compilation.
The first child of the root gets id 1; after popping it, the next
sibling frame created gets id 1 as well (ids are parent id + 1, not a
global counter), refuting "distinct from the id of every other frame
created during the compilation". -/
theorem c6_sibling_frame_id_reused :
    ((emptyProgram.pushFrame true).popFrameImplicit.pushFrame true).currentFrameId =
      (emptyProgram.pushFrame true).currentFrameId ∧
    (emptyProgram.pushFrame true).currentFrameId = 1 := by
  exact ⟨rfl, rfl⟩

/-- C6 amended: a child frame's id is exactly its parent's id + 1 —
hence strictly greater than the parent's at creation time, and ids are
strictly decreasing (hence unique) along any one active chain — but a
sibling created after a pop reuses its predecessor's id, so ids are not
unique across the whole compilation. -/
theorem c6_child_frame_id_succ (p : Program) (implicit : Bool) :
    (p.pushFrame implicit).frame =
      { id := p.currentFrameId + 1, symbols := [] } :: p.frame ∧
    p.currentFrameId < (p.pushFrame implicit).currentFrameId := by
  have hfr : (p.pushFrame implicit).frame =
      { id := p.currentFrameId + 1, symbols := [] } :: p.frame := by
    cases implicit with
    | true => rfl
    | false =>
        simp [Program.pushFrame, Program.pushOp, appendOps_frame,
          appendOps_currentFrameId]
  refine ⟨hfr, ?_⟩
  show p.currentFrameId < ((p.pushFrame implicit).frame.headD default).id
  rw [hfr]
  exact Nat.lt_succ_self _

/-- C7: compiling a union of the Number and String keyword types emits
exactly `Frame`, `Number`, `String`, `Union` — four opcodes, no
operands — and leaves the scope implicitly: nothing is emitted after
`Union` and the frame chain is back to the root. -/
theorem c7_union_opcode_sequence :
    Except.map (fun q => (q.ops, q.frame))
      (handle 9 (.unionType [.numberKeyword, .stringKeyword]) emptyProgram) =
    .ok ([opFrame, opNumber, opString, opUnion], [{ id := 0, symbols := [] }]) := by
  rfl

/-- C8: symbol resolution fails with `UnresolvedSymbol` exactly when no
frame on the current chain declares the name; in particular, in the
sibling-alias scenario the `TypeVariable` `T` declared inside alias
`A`'s routine lives in a frame that was popped when `A`'s routine was
left, so resolving `T` while compiling sibling `B`'s routine body yields
`UnresolvedSymbol`. -/
theorem c8_scope_isolation :
    (∀ (p : Program) (name : String),
      p.findSymbol name = .error .unresolvedSymbol ↔
        ¬ DeclaredOnChain p.frame name) ∧
    c8Scenario = .error .unresolvedSymbol := by
  constructor
  · intro p name
    unfold Program.findSymbol
    cases h : Program.findOnChain p.frame name with
    | some s =>
        refine iff_of_false (by simp) ?_
        intro hnd
        rw [(findOnChain_eq_none_iff p.frame name).mpr hnd] at h
        cases h
    | none =>
        exact iff_of_true rfl ((findOnChain_eq_none_iff p.frame name).mp h)
  · rfl

/-- C9: `popSubroutine` is not atomic on failure.  Whenever the
active-routine stack is non-empty, its top routine's buffer is empty,
and the current frame has a parent, the call returns the `EmptyRoutine`
error with the current frame already replaced by its parent while the
active-routine stack (and everything else) is unchanged. -/
theorem c9_popSubroutine_mutates_frame_on_error
    (p : Program) (i : Nat) (rest : List Nat) (f g : Frame) (chain : List Frame)
    (h1 : p.activeSubroutines = i :: rest)
    (h2 : (p.subroutines.getD i default).ops = [])
    (h3 : p.frame = f :: g :: chain) :
    p.popSubroutineSt = ({ p with frame := g :: chain }, some .emptyRoutine) := by
  have hpf : p.popFrameImplicit = { p with frame := g :: chain } := by
    unfold Program.popFrameImplicit
    rw [h3]
  have h2' : (p.subroutines[i]?.getD default).ops = [] := by
    simpa using h2
  simp [Program.popSubroutineSt, hpf, h1, h2']

/-- C9 witness: the scenario at a concrete program state. -/
theorem c9_popSubroutine_mutates_frame_on_error_witness :
    c9Program.activeSubroutines = 0 :: [] ∧
    (c9Program.subroutines.getD 0 default).ops = [] ∧
    c9Program.frame = { id := 1, symbols := [] } :: { id := 0, symbols := [] } :: [] ∧
    c9Program.popSubroutineSt =
      ({ c9Program with frame := { id := 0, symbols := [] } :: [] },
       some .emptyRoutine) :=
  ⟨rfl, rfl, rfl,
    c9_popSubroutine_mutates_frame_on_error c9Program 0 []
      { id := 1, symbols := [] } { id := 0, symbols := [] } [] rfl rfl rfl⟩

/-- C10: `pushSubroutine` consults only the current frame's own symbol
list: when the current frame does not declare the name, it fails with
`UnknownRoutine` even if an enclosing frame declares the name with an
attached routine — on which `findSymbol` (which walks the whole chain)
succeeds. -/
theorem c10_pushSubroutine_current_frame_only
    (p : Program) (name : String) (f : Frame) (chain : List Frame) (s : Symbol) (r : Nat)
    (h1 : p.frame = f :: chain)
    (h2 : ∀ x ∈ f.symbols, x.name ≠ name)
    (h3 : Program.findOnChain chain name = some s)
    (h4 : s.routine = some r) :
    p.pushSubroutine name = .error .unknownRoutine ∧
    p.findSymbol name = .ok s := by
  have hfind : f.symbols.find? (fun x => x.name == name) = none := by
    rw [List.find?_eq_none]
    intro x hx
    simpa using h2 x hx
  have hchain : Program.findOnChain p.frame name = some s := by
    rw [h1]
    simp only [Program.findOnChain, hfind]
    exact h3
  constructor
  · unfold Program.pushSubroutine
    rw [h1]
    simp [hfind]
  · simp [Program.findSymbol, hchain]

/-- C10 witness: the scenario at a concrete program state — `A` lives
only in the enclosing (root) frame, not in the current frame. -/
theorem c10_pushSubroutine_current_frame_only_witness :
    c10Program.frame = { id := 1, symbols := [] } :: [frameWithA] ∧
    (∀ x ∈ (Frame.symbols { id := 1, symbols := [] }), x.name ≠ "A") ∧
    Program.findOnChain [frameWithA] "A" = some symbolA ∧
    symbolA.routine = some 0 ∧
    (c10Program.pushSubroutine "A" = .error .unknownRoutine ∧
      c10Program.findSymbol "A" = .ok symbolA) :=
  ⟨rfl, by simp, rfl, rfl,
    c10_pushSubroutine_current_frame_only c10Program "A"
      { id := 1, symbols := [] } [frameWithA] symbolA 0 rfl (by simp) rfl rfl⟩

/-- C5: declaring the same alias name a second time in a frame that
already holds its symbol (with its routine attached, declaration count
1) is idempotent: the walker bumps the declaration count to 2 on the
existing symbol at its original slot index and leaves the registry, the
emitted bytecode, the active-routine stack and the storage pool
untouched — the body is not recompiled. -/
theorem c5_alias_redeclaration_idempotent
    (fuel : Nat) (name : String) (pos : Nat) (tps : Option (List String)) (ty : Node)
    (p : Program) (f : Frame) (rest : List Frame) (si : Nat)
    (h1 : p.frame = f :: rest)
    (h2 : f.symbols.findIdx? (fun s => s.name == name) = some si)
    (h3 : (f.symbols.getD si default).declarations = 1)
    (h4 : (f.symbols.getD si default).routine.isSome = true) :
    ∃ q, handle (fuel + 1) (.typeAliasDeclaration name pos tps ty) p = .ok q ∧
      q.subroutines = p.subroutines ∧
      q.ops = p.ops ∧
      q.activeSubroutines = p.activeSubroutines ∧
      q.storage = p.storage ∧
      q.frame = { f with symbols := (listModify f.symbols si
          (fun s => { s with declarations := s.declarations + 1 })) } :: rest ∧
      ((q.frame.headD default).symbols.getD si default).declarations = 2 ∧
      ((q.frame.headD default).symbols.getD si default).index =
        (f.symbols.getD si default).index := by
  have hlt : si < f.symbols.length := (List.findIdx?_eq_some_iff_findIdx_eq.mp h2).1
  have hidx : f.symbols[si]? = some f.symbols[si] := List.getElem?_eq_getElem hlt
  have h3' : f.symbols[si].declarations = 1 := by simpa [hidx] using h3
  have h4' : f.symbols[si].routine.isSome = true := by simpa [hidx] using h4
  refine ⟨{ p with frame := { f with symbols := (listModify f.symbols si
      (fun s => { s with declarations := s.declarations + 1 })) } :: rest },
    ?_, rfl, rfl, rfl, rfl, rfl, ?_, ?_⟩
  · have hps : p.pushSymbol name SymbolType.Typ pos =
        ({ p with frame := { f with symbols := (listModify f.symbols si
            (fun s => { s with declarations := s.declarations + 1 })) } :: rest }, si) := by
      simp only [Program.pushSymbol, h1, h2]
    have hpsr : p.pushSymbolForRoutine name SymbolType.Typ pos =
        ({ p with frame := { f with symbols := (listModify f.symbols si
            (fun s => { s with declarations := s.declarations + 1 })) } :: rest }, si) := by
      simp [Program.pushSymbolForRoutine, hps, Program.currentSymbols,
        listModify_getElem?, hidx, h4']
    simp [handle, hpsr, Program.currentSymbols, listModify_getElem?, hidx, h3']
  · simp [Program.currentSymbols, listModify_getElem?, hidx, h3']
  · simp [Program.currentSymbols, listModify_getElem?, hidx]

/-- C5 witness: re-declaring alias `A` on the concrete
one-declaration-done program state. -/
theorem c5_alias_redeclaration_idempotent_witness :
    c5Program.frame = frameWithA :: [] ∧
    frameWithA.symbols.findIdx? (fun s => s.name == "A") = some 0 ∧
    (frameWithA.symbols.getD 0 default).declarations = 1 ∧
    (frameWithA.symbols.getD 0 default).routine.isSome = true ∧
    (∃ q, handle 9 (.typeAliasDeclaration "A" 1 none .stringKeyword) c5Program = .ok q ∧
      q.subroutines = c5Program.subroutines ∧
      q.ops = c5Program.ops ∧
      q.activeSubroutines = c5Program.activeSubroutines ∧
      q.storage = c5Program.storage ∧
      q.frame = { frameWithA with symbols := (listModify frameWithA.symbols 0
          (fun s => { s with declarations := s.declarations + 1 })) } :: [] ∧
      ((q.frame.headD default).symbols.getD 0 default).declarations = 2 ∧
      ((q.frame.headD default).symbols.getD 0 default).index =
        (frameWithA.symbols.getD 0 default).index) :=
  ⟨rfl, rfl, rfl, rfl,
    c5_alias_redeclaration_idempotent 8 "A" 1 none .stringKeyword c5Program
      frameWithA [] 0 rfl rfl rfl rfl⟩

end TsChecker
